import Mathlib

/-!
# Verification of the dynamic tool runtime core

A shallow embedding, in Lean 4, of the validation / caching / lifecycle core of
the dynamic-tool runtime (Python sources under `src/`):

* `storage/artifact_storage.py` — content hashing and the artifact store;
* `validation/validation_result.py`, `security_policy.py`, `policy_evaluator.py`,
  `validation_cache.py`, `validation_service.py` — analysis results, policies,
  the policy evaluator and the validation service;
* `validation/python_analyzer.py`, `javascript_analyzer.py` — the two language
  analyzers (AST walk for Python, lexical scan for JavaScript/TypeScript);
* `repositories/tool_repository.py`, `agentcore/tool_lifecycle.py` — the tool
  index and the register / update / deregister sagas.

Modelling conventions:

* Source text and storage keys are lists of characters (`Str`); short tags,
  identifiers and messages are `String`.
* Python `float` arithmetic is modelled over `ℚ` (every constant in the source
  is an exact decimal).
* External collaborators are parameters: `hashlib.sha256` is an arbitrary
  digest function (the theorems that need it assume it injective, i.e. assume
  collision-freeness); `ast.parse` is modelled by taking the parsed tree as
  input; the optional Bandit linter pass contributes no findings (it can only
  produce non-critical severities and is unavailable in the modelled runs);
  the AgentCore gateway and the analyzer outcome are oracle parameters of the
  lifecycle functions; DynamoDB and S3 are association-list states.
* Python object identity (`==` on `ast` nodes) is modelled by structural
  equality of trees; timestamps and UUIDs are passed in as parameters.
-/

namespace DynamicTools

/-- Source text / storage keys: Python `str` modelled as a list of characters. -/
abbrev Str := List Char

/-- The whitespace class of Python `str.strip()` (and of `\s` in the scanned
regex patterns): space, tab, newline, carriage return, vertical tab, form feed. -/
def isPySpace (c : Char) : Bool :=
  c = ' ' || c = '\t' || c = '\n' || c = '\r' || c = '\x0b' || c = '\x0c'

/-- Python `str.strip()`: drop leading and trailing whitespace. -/
def pyStrip (s : Str) : Str :=
  (s.dropWhile isPySpace).rdropWhile isPySpace

/-- The exact byte string `ArtifactStorage.compute_code_hash` feeds to SHA-256:
`f"{language}:{normalized}"` where `normalized = code.strip()`. -/
def hashContent (code lang : Str) : Str :=
  lang ++ [':'] ++ pyStrip code

/-- `ArtifactStorage.compute_code_hash(code, language)`: digest of
`language ++ ":" ++ code.strip()`.  `digest` stands for the external
`hashlib.sha256(...).hexdigest()`. -/
def compute_code_hash (digest : Str → Str) (code lang : Str) : Str :=
  digest (hashContent code lang)

/-! ## Validation data model (`validation/validation_result.py`) -/

/-- `SeverityLevel` string enum. -/
inductive SeverityLevel where
  | low
  | medium
  | high
  | critical
  deriving DecidableEq, Repr

/-- `.value` of the severity enum member. -/
def SeverityLevel.value : SeverityLevel → String
  | .low => "low"
  | .medium => "medium"
  | .high => "high"
  | .critical => "critical"

/-- `SecurityIssue` dataclass. -/
structure SecurityIssue where
  severity : SeverityLevel
  issue_type : String
  message : String
  line_number : Option Nat := none
  code_snippet : Option String := none
  deriving DecidableEq, Repr

/-- `ResourceEstimate` dataclass.  Python floats are modelled over `ℚ`. -/
structure ResourceEstimate where
  estimated_memory_mb : Nat
  estimated_cpu_seconds : ℚ
  complexity_score : Nat
  has_loops : Bool
  has_recursion : Bool
  max_depth : Int
  deriving DecidableEq, Repr

/-- Detailed `ValidationResult` dataclass (the analyzers' output format). -/
structure ValidationResult where
  is_valid : Bool
  language : String
  code_hash : String
  errors : List String := []
  warnings : List String := []
  security_issues : List SecurityIssue := []
  resource_estimate : Option ResourceEstimate := none
  deriving DecidableEq, Repr

/-- `ValidationResult.has_critical_issues`. -/
def ValidationResult.has_critical_issues (vr : ValidationResult) : Bool :=
  vr.security_issues.any (fun issue => issue.severity = SeverityLevel.critical)

/-! ## Security policy (`validation/security_policy.py`) -/

/-- `PolicyViolationType` enum. -/
inductive PolicyViolationType where
  | fileSystemAccess
  | networkAccess
  | systemCall
  | dangerousFunction
  | resourceLimit
  | prohibitedImport
  deriving DecidableEq, Repr

/-- `ResourceLimits` dataclass (defaults as in the source). -/
structure ResourceLimits where
  max_memory_mb : Nat := 512
  max_cpu_seconds : ℚ := 30
  max_complexity : Nat := 50
  max_nesting_depth : Int := 10
  allow_loops : Bool := true
  allow_recursion : Bool := false
  deriving DecidableEq, Repr

/-- `SecurityPolicy` dataclass.  The `rules` list and the prohibited-module /
prohibited-function sets carried by the Python dataclass are never read by the
policy evaluator (the analyzers use their own class-level sets), so only the
fields the evaluated behaviour depends on are modelled. -/
structure SecurityPolicy where
  policy_id : String
  policy_name : String
  version : String
  resource_limits : ResourceLimits
  deriving DecidableEq, Repr

/-- `PolicyViolation` dataclass.  `severity` is a plain string in the source
(compared against the literal `"critical"`), and is modelled as such. -/
structure PolicyViolation where
  violation_type : PolicyViolationType
  rule_id : String
  severity : String
  message : String
  line_number : Option Nat := none
  code_snippet : Option String := none
  remediation : Option String := none
  deriving DecidableEq, Repr

/-- `SecurityPolicyManager.get_default_policy()` (the fields the evaluator reads). -/
def get_default_policy : SecurityPolicy :=
  { policy_id := "default-v1"
    policy_name := "Default Dynamic Tool Security Policy"
    version := "1.0.0"
    resource_limits :=
      { max_memory_mb := 512
        max_cpu_seconds := 30
        max_complexity := 50
        max_nesting_depth := 10
        allow_loops := true
        allow_recursion := false } }

/-- `SecurityPolicyManager.get_permissive_policy()`: the default policy with a
new id/name, recursion allowed and the complexity ceiling raised to 100. -/
def get_permissive_policy : SecurityPolicy :=
  { get_default_policy with
    policy_id := "permissive-v1"
    policy_name := "Permissive Security Policy"
    resource_limits :=
      { get_default_policy.resource_limits with
        allow_recursion := true
        max_complexity := 100 } }

/-! ## Policy evaluator (`validation/policy_evaluator.py`)

Violation messages are modelled without the interpolated numeric values
(Python float formatting is outside this embedding); every field the claims
inspect — violation type, rule id, severity, the constant messages — is exact. -/

/-- `PolicyEvaluator._check_resource_limits`: the five checks, in source order
(memory, cpu time, complexity, nesting depth, recursion-not-allowed). -/
def check_resource_limits (limits : ResourceLimits) (est : ResourceEstimate) :
    List PolicyViolation :=
  (if est.estimated_memory_mb > limits.max_memory_mb then
    [{ violation_type := .resourceLimit, rule_id := "RES001", severity := "high",
       message := "Estimated memory usage exceeds limit",
       remediation := some "Reduce code complexity or data structures" }]
   else []) ++
  (if est.estimated_cpu_seconds > limits.max_cpu_seconds then
    [{ violation_type := .resourceLimit, rule_id := "RES001", severity := "high",
       message := "Estimated CPU time exceeds limit",
       remediation := some "Optimize algorithms or reduce iterations" }]
   else []) ++
  (if est.complexity_score > limits.max_complexity then
    [{ violation_type := .resourceLimit, rule_id := "RES001", severity := "medium",
       message := "Code complexity exceeds limit",
       remediation := some "Simplify code structure and reduce nesting" }]
   else []) ++
  (if est.max_depth > limits.max_nesting_depth then
    [{ violation_type := .resourceLimit, rule_id := "RES001", severity := "medium",
       message := "Nesting depth exceeds limit",
       remediation := some "Reduce nesting by extracting functions" }]
   else []) ++
  (if est.has_recursion && !limits.allow_recursion then
    [{ violation_type := .resourceLimit, rule_id := "RES001", severity := "high",
       message := "Recursion is not allowed by security policy",
       remediation := some "Convert recursive logic to iterative approach" }]
   else [])

/-- `PolicyEvaluator._map_issue_to_violation_type`: the static string table with
`DANGEROUS_FUNCTION` as the fallback. -/
def map_issue_to_violation_type (issue_type : String) : PolicyViolationType :=
  if issue_type = "prohibited_import" then .prohibitedImport
  else if issue_type = "prohibited_builtin" then .dangerousFunction
  else if issue_type = "dangerous_pattern" then .dangerousFunction
  else if issue_type = "prohibited_global" then .dangerousFunction
  else .dangerousFunction

/-- `PolicyEvaluator._get_rule_id_for_type` static table. -/
def get_rule_id_for_type : PolicyViolationType → String
  | .fileSystemAccess => "FS001"
  | .networkAccess => "NET001"
  | .systemCall => "SYS001"
  | .dangerousFunction => "FUNC001"
  | .resourceLimit => "RES001"
  | .prohibitedImport => "IMP001"

/-- `PolicyEvaluator._get_remediation` static table. -/
def get_remediation : PolicyViolationType → String
  | .fileSystemAccess =>
      "Remove file system operations or use approved temporary storage APIs"
  | .networkAccess => "Remove network calls or use approved API endpoints"
  | .systemCall => "Remove system calls and process spawning operations"
  | .dangerousFunction => "Replace dynamic code execution with safe alternatives"
  | .resourceLimit => "Optimize code to reduce resource usage"
  | .prohibitedImport =>
      "Remove prohibited module imports and use approved alternatives"

/-- The body of the finding-to-violation loop in `PolicyEvaluator.evaluate`:
one `PolicyViolation` per `SecurityIssue`. -/
def violation_of_issue (issue : SecurityIssue) : PolicyViolation :=
  let vtype := map_issue_to_violation_type issue.issue_type
  { violation_type := vtype
    rule_id := get_rule_id_for_type vtype
    severity := issue.severity.value
    message := issue.message
    line_number := issue.line_number
    code_snippet := issue.code_snippet
    remediation := some (get_remediation vtype) }

/-- `PolicyEvaluator.evaluate`: resource-limit violations (when an estimate is
present) followed by one violation per security issue. -/
def evaluate (policy : SecurityPolicy) (vr : ValidationResult) : List PolicyViolation :=
  (match vr.resource_estimate with
   | some est => check_resource_limits policy.resource_limits est
   | none => []) ++
  vr.security_issues.map violation_of_issue

/-- `PolicyEvaluator.has_critical_violations`. -/
def has_critical_violations (violations : List PolicyViolation) : Bool :=
  violations.any (fun v => v.severity = "critical")

/-- Specification-side view of the five resource checks: an ordered table of
(fired?, violation) pairs, used to state that `check_resource_limits` emits at
most one violation per check, in the fixed order. -/
def resourceCheckTable (limits : ResourceLimits) (est : ResourceEstimate) :
    List (Bool × PolicyViolation) :=
  [ (decide (est.estimated_memory_mb > limits.max_memory_mb),
     { violation_type := .resourceLimit, rule_id := "RES001", severity := "high",
       message := "Estimated memory usage exceeds limit",
       remediation := some "Reduce code complexity or data structures" }),
    (decide (est.estimated_cpu_seconds > limits.max_cpu_seconds),
     { violation_type := .resourceLimit, rule_id := "RES001", severity := "high",
       message := "Estimated CPU time exceeds limit",
       remediation := some "Optimize algorithms or reduce iterations" }),
    (decide (est.complexity_score > limits.max_complexity),
     { violation_type := .resourceLimit, rule_id := "RES001", severity := "medium",
       message := "Code complexity exceeds limit",
       remediation := some "Simplify code structure and reduce nesting" }),
    (decide (est.max_depth > limits.max_nesting_depth),
     { violation_type := .resourceLimit, rule_id := "RES001", severity := "medium",
       message := "Nesting depth exceeds limit",
       remediation := some "Reduce nesting by extracting functions" }),
    (est.has_recursion && !limits.allow_recursion,
     { violation_type := .resourceLimit, rule_id := "RES001", severity := "high",
       message := "Recursion is not allowed by security policy",
       remediation := some "Convert recursive logic to iterative approach" }) ]

/-- Specification-side resource part of an evaluation: the fired rows of the
ordered check table (empty when no estimate is present). -/
def resourceViolationsSpec (limits : ResourceLimits) :
    Option ResourceEstimate → List PolicyViolation
  | none => []
  | some est => ((resourceCheckTable limits est).filter (fun b => b.1)).map (fun b => b.2)

/-- Number of resource checks that fire. -/
def firedChecks (limits : ResourceLimits) : Option ResourceEstimate → Nat
  | none => 0
  | some est => (resourceCheckTable limits est).countP (fun b => b.1)

/-! ## Validation cache conversion and the validation service
(`validation/validation_cache.py`, `validation/validation_service.py`) -/

/-- Simple `ValidationResult` dataclass of `models/cached_artifact.py` (the
format persisted inside a cached artifact: messages only, no severities, no
resource estimate). -/
structure SimpleValidationResult where
  is_valid : Bool
  errors : List String := []
  warnings : List String := []
  security_issues : List String := []
  deriving DecidableEq, Repr

/-- `ValidationCache._convert_to_simple_result`. -/
def convert_to_simple_result (detailed : ValidationResult) : SimpleValidationResult :=
  { is_valid := detailed.is_valid
    errors := detailed.errors
    warnings := detailed.warnings
    security_issues := detailed.security_issues.map (fun issue => issue.message) }

/-- `ValidationCache._convert_to_detailed_result`: every cached issue message
comes back as a `SecurityIssue` with severity HIGH and issue type
`"cached_issue"`, and the resource estimate is not stored in the simple
format, so it comes back as `none`. -/
def convert_to_detailed_result (simple : SimpleValidationResult)
    (code_hash language : String) : ValidationResult :=
  { is_valid := simple.is_valid
    language := language
    code_hash := code_hash
    errors := simple.errors
    warnings := simple.warnings
    security_issues := simple.security_issues.map (fun m =>
      { severity := SeverityLevel.high, issue_type := "cached_issue", message := m })
    resource_estimate := none }

/-- `models/errors.py` `ValidationError` payload. -/
structure ValidationFailure where
  message : String
  errors : List String := []
  warnings : List String := []
  security_issues : List String := []
  deriving DecidableEq, Repr

/-- Boolean success test on `Except`. -/
def exceptOk {ε α : Type _} : Except ε α → Bool
  | .ok _ => true
  | .error _ => false

/-- Decision core of `ValidationService.validate_code`.

`cached` is the outcome of the cache lookup (`get_cached_validation`): on a
hit the cached simple result is converted back to the detailed format,
re-evaluated against the current policy and returned immediately (the
best-effort usage-count bump is a cache-state effect, modelled in the stateful
lifecycle layer).  On a miss the analyzer outcome `analyzed`
(`CodeValidator.validate_safe`) is evaluated; a critical violation or an
invalid result raises `ValidationError`, otherwise the pair is returned (the
best-effort cache write is likewise a state effect). -/
def validate_code_result (policy : SecurityPolicy)
    (cached : Option SimpleValidationResult) (code_hash language : String)
    (analyzed : ValidationResult) :
    Except ValidationFailure (ValidationResult × List PolicyViolation) :=
  match cached with
  | some simple =>
      let cachedResult := convert_to_detailed_result simple code_hash language
      .ok (cachedResult, evaluate policy cachedResult)
  | none =>
      let violations := evaluate policy analyzed
      if has_critical_violations violations || !analyzed.is_valid then
        .error
          { message := "Code validation failed due to security policy violations"
            errors := analyzed.errors
            warnings := analyzed.warnings
            security_issues :=
              (violations.filter (fun v => v.severity = "critical")).map
                (fun v => v.message) }
      else
        .ok (analyzed, violations)

/-! ## Python analyzer (`validation/python_analyzer.py`)

The analyzer runs on the tree produced by the external `ast.parse`, so the
embedding takes the parsed tree as input.  Only the node shapes the analyzer
dispatches on are distinguished; every other node kind (`arguments`, `arg`,
`Name`, `Return`, `BinOp`, `Expr`, ...) is `other` with its child list, or a
tagged `leaf` (the tag records the salient content — a name id, a constant, an
operator — so that distinct leaves of one parse tree stay distinguishable
under the structural equality that models Python object identity).
`Import` aliases and `ImportFrom` carry their module names directly (their
`alias` child nodes are not loops/defs/calls and are dropped from the walk).
A `Call` carries `some f` exactly when its `func` is a `Name` with id `f`
(the only case the source inspects); its child nodes follow.
Line numbers and code snippets of findings are not modelled. -/

/-- Shape of a parsed Python AST, as dispatched on by the analyzer. -/
inductive PyAst where
  | module (body : List PyAst)
  | functionDef (fname : String) (children : List PyAst)
  | forStmt (children : List PyAst)
  | whileStmt (children : List PyAst)
  | call (funcName : Option String) (children : List PyAst)
  | importStmt (moduleNames : List String)
  | importFrom (moduleName : Option String)
  | leaf (tag : String)
  | other (children : List PyAst)

mutual

/-- Node count measure for termination of the breadth-first walk. -/
def PyAst.size : PyAst → Nat
  | .module l => 1 + PyAst.sizeList l
  | .functionDef _ l => 1 + PyAst.sizeList l
  | .forStmt l => 1 + PyAst.sizeList l
  | .whileStmt l => 1 + PyAst.sizeList l
  | .call _ l => 1 + PyAst.sizeList l
  | .importStmt _ => 1
  | .importFrom _ => 1
  | .leaf _ => 1
  | .other l => 1 + PyAst.sizeList l

/-- Total size of a list of trees. -/
def PyAst.sizeList : List PyAst → Nat
  | [] => 0
  | a :: l => PyAst.size a + PyAst.sizeList l

end

/-- `ast.iter_child_nodes`. -/
def PyAst.childNodes : PyAst → List PyAst
  | .module l => l
  | .functionDef _ l => l
  | .forStmt l => l
  | .whileStmt l => l
  | .call _ l => l
  | .importStmt _ => []
  | .importFrom _ => []
  | .leaf _ => []
  | .other l => l

mutual

/-- Structural equality of trees, modelling Python `==` on `ast` nodes (the
source compares nodes of one parse tree, whose subtrees are distinct objects). -/
def PyAst.beq : PyAst → PyAst → Bool
  | .module a, .module b => PyAst.beqList a b
  | .functionDef na a, .functionDef nb b => na == nb && PyAst.beqList a b
  | .forStmt a, .forStmt b => PyAst.beqList a b
  | .whileStmt a, .whileStmt b => PyAst.beqList a b
  | .call fa a, .call fb b => fa == fb && PyAst.beqList a b
  | .importStmt a, .importStmt b => a == b
  | .importFrom a, .importFrom b => a == b
  | .leaf a, .leaf b => a == b
  | .other a, .other b => PyAst.beqList a b
  | _, _ => false

/-- Pointwise `PyAst.beq` on lists. -/
def PyAst.beqList : List PyAst → List PyAst → Bool
  | [], [] => true
  | x :: xs, y :: ys => PyAst.beq x y && PyAst.beqList xs ys
  | _, _ => false

end

/-- `ast.walk`: breadth-first traversal.  The deque-based generator of the
source yields nodes level by level, left to right, which is what the
level-at-a-time recursion below produces.  The recursion is structural on a
fuel argument so that the walk reduces inside the kernel; the total size of
the pending level strictly decreases at every step, so any fuel of at least
`sizeList l` steps gives the full walk (`walkLevels_fuel_irrelevant`). -/
def walkLevels (fuel : Nat) (l : List PyAst) : List PyAst :=
  match fuel, l with
  | _, [] => []
  | 0, _ => []
  | fuel + 1, n :: rest => (n :: rest) ++ walkLevels fuel ((n :: rest).flatMap PyAst.childNodes)

/-- The walk order of `ast.walk(tree)`. -/
def pyWalk (t : PyAst) : List PyAst := walkLevels t.size [t]

/-- `PythonAnalyzer.PROHIBITED_MODULES`. -/
def python_prohibited_modules : List String :=
  ["os", "subprocess", "socket", "urllib", "urllib2", "urllib3", "requests",
   "http", "httplib", "ftplib", "telnetlib", "smtplib", "poplib", "imaplib",
   "__import__", "importlib", "sys", "ctypes", "multiprocessing", "threading",
   "asyncio"]

/-- `PythonAnalyzer.PROHIBITED_BUILTINS`. -/
def python_prohibited_builtins : List String :=
  ["eval", "exec", "compile", "__import__", "open", "input"]

/-- The per-node checks of `PythonAnalyzer._analyze_ast`: prohibited `import`,
prohibited `from ... import`, prohibited built-in call — all critical. -/
def issuesOfNode : PyAst → List SecurityIssue
  | .importStmt names =>
      (names.filter (fun m => python_prohibited_modules.contains m)).map (fun m =>
        { severity := SeverityLevel.critical, issue_type := "prohibited_import",
          message := "Prohibited module import: " ++ m })
  | .importFrom (some m) =>
      if python_prohibited_modules.contains m then
        [{ severity := SeverityLevel.critical, issue_type := "prohibited_import",
           message := "Prohibited module import: " ++ m }]
      else []
  | .call (some f) _ =>
      if python_prohibited_builtins.contains f then
        [{ severity := SeverityLevel.critical, issue_type := "prohibited_builtin",
           message := "Prohibited built-in function: " ++ f }]
      else []
  | _ => []

/-- `PythonAnalyzer._analyze_ast`: issues collected over the walk. -/
def analyze_ast_issues (tree : PyAst) : List SecurityIssue :=
  (pyWalk tree).flatMap issuesOfNode

/-- Is a node a loop (`ast.For` / `ast.While`)? -/
def PyAst.isLoop : PyAst → Bool
  | .forStmt _ => true
  | .whileStmt _ => true
  | _ => false

/-- Python `set.add` on the tracked function-name set (membership is all the
source reads, so the set is a duplicate-free list). -/
def addFuncName (names : List String) (f : String) : List String :=
  if f ∈ names then names else names ++ [f]

/-- Accumulator of the single walk loop in `PythonAnalyzer._estimate_resources`. -/
structure PyEstState where
  function_names : List String
  has_loops : Bool
  has_recursion : Bool
  complexity : Nat
  deriving DecidableEq, Repr

/-- One iteration of the `_estimate_resources` walk loop: loops bump
complexity by 2, a function definition records its name, and a call to an
already-recorded name sets `has_recursion` and bumps complexity by 5. -/
def estimateStep (s : PyEstState) (n : PyAst) : PyEstState :=
  let s1 := if n.isLoop then
    { s with has_loops := true, complexity := s.complexity + 2 } else s
  let s2 := match n with
    | .functionDef f _ => { s1 with function_names := addFuncName s1.function_names f }
    | _ => s1
  match n with
  | .call (some f) _ =>
      if f ∈ s2.function_names then
        { s2 with has_recursion := true, complexity := s2.complexity + 5 }
      else s2
  | _ => s2

/-- Initial accumulator: no names, no flags, complexity 1. -/
def initEstState : PyEstState := ⟨[], false, false, 1⟩

/-- Does the child list of a node contain the target (`child == target_node`)? -/
def childContains (l : List PyAst) (target : PyAst) : Bool :=
  l.any (fun c => PyAst.beq c target)

/-- Scanning loop of `PythonAnalyzer._get_node_depth`: walk the tree, counting
nodes, and return count+1 at the first node whose children contain the target. -/
def nodeDepthGo (target : PyAst) : List PyAst → Nat → Nat
  | [], _ => 0
  | n :: rest, d =>
      if childContains n.childNodes target then d + 1 else nodeDepthGo target rest (d + 1)

/-- `PythonAnalyzer._get_node_depth`. -/
def get_node_depth (target tree : PyAst) : Nat :=
  nodeDepthGo target (pyWalk tree) 0

/-- The `max_depth` accumulated over the `_estimate_resources` walk. -/
def pyMaxDepth (tree : PyAst) : Nat :=
  (pyWalk tree).foldl (fun m n => max m (get_node_depth n tree)) 0

/-- `PythonAnalyzer._estimate_resources`. -/
def py_estimate_resources (tree : PyAst) : ResourceEstimate :=
  let s := (pyWalk tree).foldl estimateStep initEstState
  let estimated_memory : Nat := 64 + s.complexity * 2
  let estimated_cpu : ℚ := 0.1 + s.complexity * 0.05
    + (if s.has_loops then 0.5 else 0) + (if s.has_recursion then 1 else 0)
  { estimated_memory_mb := min estimated_memory 512
    estimated_cpu_seconds := min estimated_cpu 30
    complexity_score := s.complexity
    has_loops := s.has_loops
    has_recursion := s.has_recursion
    max_depth := (pyMaxDepth tree : Int) }

/-- `PythonAnalyzer.analyze` on a successfully parsed tree: AST security scan,
optional linter pass (external, no findings here), resource estimation;
valid iff no errors and no critical issue. -/
def py_analyze (tree : PyAst) (code_hash : String) : ValidationResult :=
  let issues := analyze_ast_issues tree
  { is_valid := !(issues.any (fun i => i.severity = SeverityLevel.critical))
    language := "python"
    code_hash := code_hash
    errors := []
    warnings := []
    security_issues := issues
    resource_estimate := some (py_estimate_resources tree) }

/-- Specification-side count of loop nodes in a walk. -/
def loopCount (l : List PyAst) : Nat := l.countP PyAst.isLoop

/-- Specification-side count of recursion hits in a walk: calls whose callee
name was declared by a function definition seen no later in the walk. -/
def recCallCount (names : List String) : List PyAst → Nat
  | [] => 0
  | n :: rest =>
      let names' := match n with
        | .functionDef f _ => addFuncName names f
        | _ => names
      (match n with
       | .call (some f) _ => if f ∈ names' then 1 else 0
       | _ => 0) + recCallCount names' rest

/-- Specification-side evolution of the tracked function-name set. -/
def namesFold (names : List String) : List PyAst → List String
  | [] => names
  | n :: rest =>
      namesFold (match n with
        | .functionDef f _ => addFuncName names f
        | _ => names) rest

/-! ## JavaScript/TypeScript analyzer — resource estimation
(`validation/javascript_analyzer.py`, `_estimate_resources`)

The JS analyzer is a lexical heuristic over the raw source.  The regex
patterns it applies are embedded as direct scanners:

* `\bfor\s*\(`, `\bwhile\s*\(`, `\bdo\s*{` — loop detection;
* `function\s+(\w+)\s*\(` and `const\s+(\w+)\s*=\s*\([^)]*\)\s*=>` — declared
  function names (no word boundary in the source pattern);
* `\b<name>\s*\(` — occurrence count per declared name; recursion is flagged
  when a name has more than one such occurrence (the declaration itself
  matches too).

Matches of these patterns cannot overlap, so `re.findall` / `re.search` agree
with the position-by-position scans used here.  `\w` is modelled as ASCII
letters, digits and underscore. -/

/-- The `\w` word-character class. -/
def isWordChar (c : Char) : Bool :=
  ('a' ≤ c && c ≤ 'z') || ('A' ≤ c && c ≤ 'Z') || ('0' ≤ c && c ≤ '9') || c = '_'

/-- A `\b` boundary holds before a word character when the preceding character
(if any) is not a word character. -/
def boundaryOk : Option Char → Bool
  | none => true
  | some c => !isWordChar c

/-- Does `s` start with `kw`, then `\s*`, then the closing character `close`? -/
def startsKwClose (kw : Str) (close : Char) (s : Str) : Bool :=
  s.take kw.length == kw &&
    match (s.drop kw.length).dropWhile isPySpace with
    | c :: _ => c == close
    | [] => false

/-- `re.search` of `\b<kw>\s*<close>` over the source, tracking the previous
character for the boundary. -/
def searchPatGo (kw : Str) (close : Char) : Option Char → Str → Bool
  | _, [] => false
  | prev, c :: rest =>
      (boundaryOk prev && startsKwClose kw close (c :: rest)) ||
        searchPatGo kw close (some c) rest

/-- Search for a loop pattern in the whole source. -/
def searchPat (kw : Str) (close : Char) (code : Str) : Bool :=
  searchPatGo kw close none code

/-- `len(re.findall(rf"\b{name}\s*\(", code))`: occurrences of the name
followed by optional whitespace and an opening parenthesis. -/
def countCallsGo (name : Str) : Option Char → Str → Nat
  | _, [] => 0
  | prev, c :: rest =>
      (if boundaryOk prev && startsKwClose name '(' (c :: rest) then 1 else 0) +
        countCallsGo name (some c) rest

/-- Occurrence count of `\b<name>\s*\(` over the source. -/
def count_call_sites (name code : Str) : Nat :=
  countCallsGo name none code

/-- Match of `function\s+(\w+)\s*\(` at the start of `s`, returning the
captured name. -/
def defNameAt (s : Str) : Option Str :=
  if s.take 8 == "function".toList then
    let rest := s.drop 8
    let ws := rest.takeWhile isPySpace
    if ws.isEmpty then none
    else
      let afterWs := rest.dropWhile isPySpace
      let name := afterWs.takeWhile isWordChar
      if name.isEmpty then none
      else
        match (afterWs.drop name.length).dropWhile isPySpace with
        | '(' :: _ => some name
        | _ => none
  else none

/-- Match of `const\s+(\w+)\s*=\s*\([^)]*\)\s*=>` at the start of `s`,
returning the captured name. -/
def arrowNameAt (s : Str) : Option Str :=
  if s.take 5 == "const".toList then
    let rest := s.drop 5
    let ws := rest.takeWhile isPySpace
    if ws.isEmpty then none
    else
      let afterWs := rest.dropWhile isPySpace
      let name := afterWs.takeWhile isWordChar
      if name.isEmpty then none
      else
        match (afterWs.drop name.length).dropWhile isPySpace with
        | '=' :: afterEq =>
            match afterEq.dropWhile isPySpace with
            | '(' :: afterParen =>
                let inside := afterParen.takeWhile (fun c => c != ')')
                match afterParen.drop inside.length with
                | ')' :: afterClose =>
                    match afterClose.dropWhile isPySpace with
                    | '=' :: '>' :: _ => some name
                    | _ => none
                | _ => none
            | _ => none
        | _ => none
  else none

/-- All matches of a pattern over the source (`re.finditer`), position by
position. -/
def gatherNames (f : Str → Option Str) : Str → List Str
  | [] => []
  | c :: rest =>
      (match f (c :: rest) with
       | some n => [n]
       | none => []) ++ gatherNames f rest

/-- Python `set.add` over the collected names (first-occurrence order). -/
def addDistinct (names : List Str) (n : Str) : List Str :=
  if n ∈ names then names else names ++ [n]

/-- The `function_names` set of `_estimate_resources`: names from the
`function` pattern, then from the arrow pattern. -/
def js_function_names (code : Str) : List Str :=
  (gatherNames defNameAt code ++ gatherNames arrowNameAt code).foldl addDistinct []

/-- The three loop patterns, in source order. -/
def jsLoopPatterns : List (Str × Char) :=
  [("for".toList, '('), ("while".toList, '('), ("do".toList, '{')]

/-- The nesting-depth estimate: running `{`-minus-`}` count per line, maximum
of the running value (an `int` in Python, so it may go negative in between). -/
def jsMaxDepth (code : Str) : Int :=
  ((code.splitOn '\n').foldl
    (fun (st : Int × Int) line =>
      let cur := st.1 + (line.countP (fun c => c == '{') : Int)
        - (line.countP (fun c => c == '}') : Int)
      (cur, max st.2 cur))
    (0, 0)).2

/-- `JavaScriptAnalyzer._estimate_resources`. -/
def js_estimate_resources (code : Str) : ResourceEstimate :=
  let loopRes := jsLoopPatterns.foldl
    (fun st p => if searchPat p.1 p.2 code then (true, st.2 + 2) else st)
    ((false, 1) : Bool × Nat)
  let names := js_function_names code
  let recRes := names.foldl
    (fun st f => if 1 < count_call_sites f code then (true, st.2 + 5) else st)
    ((false, loopRes.2) : Bool × Nat)
  let estimated_memory : Nat := 64 + recRes.2 * 2
  let estimated_cpu : ℚ := 0.1 + recRes.2 * 0.05
    + (if loopRes.1 then 0.5 else 0) + (if recRes.1 then 1 else 0)
  { estimated_memory_mb := min estimated_memory 512
    estimated_cpu_seconds := min estimated_cpu 30
    complexity_score := recRes.2
    has_loops := loopRes.1
    has_recursion := recRes.1
    max_depth := jsMaxDepth code }

/-- Specification-side count of loop-pattern kinds present in a JS source. -/
def jsLoopKindCount (code : Str) : Nat :=
  jsLoopPatterns.countP (fun p => searchPat p.1 p.2 code)

/-- Specification-side count of declared names flagged recursive. -/
def jsRecNameCount (code : Str) : Nat :=
  (js_function_names code).countP (fun f => decide (1 < count_call_sites f code))

/-! ## Tool lifecycle (`models/tool_record.py`, `models/tool_definition.py`,
`models/cached_artifact.py`, `repositories/tool_repository.py`,
`storage/artifact_storage.py`, `agentcore/tool_lifecycle.py`)

The DynamoDB tool table and the S3 artifact/code objects are association
lists inside a `LifecycleState`; every call to the external AgentCore gateway
is appended to `registryLog` (so "no registry interaction" is provable as an
unchanged log).  Timestamps (`datetime.utcnow`) and generated tool ids
(`uuid4`) are parameters.  The declared parameter/return schema and free-form
metadata are opaque to all verified behaviour and are omitted from the
records. -/

/-- `ToolStatus` enum. -/
inductive ToolStatus where
  | active
  | inactive
  | deprecated
  deriving DecidableEq, Repr

/-- `ToolRecord` dataclass. -/
structure ToolRecord where
  tool_id : String
  agent_id : String
  name : String
  description : String
  version : String
  status : ToolStatus
  code_artifact_s3_key : Str
  created_at : String
  updated_at : String
  execution_count : Nat := 0
  last_executed : Option String := none
  code_hash : Option Str := none
  language : String := "python"
  deriving DecidableEq, Repr

/-- `ToolRecord.create_new`: a fresh ACTIVE record. -/
def ToolRecord.create_new (tool_id agent_id name description version : String)
    (code_artifact_s3_key code_hash : Str) (language now : String) : ToolRecord :=
  { tool_id := tool_id, agent_id := agent_id, name := name,
    description := description, version := version, status := .active,
    code_artifact_s3_key := code_artifact_s3_key, created_at := now,
    updated_at := now, execution_count := 0, code_hash := some code_hash,
    language := language }

/-- `ToolDefinition` dataclass (schema/metadata omitted — see section note). -/
structure ToolDefinition where
  name : String
  description : String
  version : String
  language : String
  code : Str
  deriving DecidableEq, Repr

/-- Python truthiness test `not s or not s.strip()` for a text field. -/
def strBlank (s : String) : Bool := s.toList.all isPySpace

/-- `ToolDefinition.validate_structure` (the language-error message carries the
offending language in the source; the constant prefix is kept). -/
def validate_structure (d : ToolDefinition) : List String :=
  (if strBlank d.name then ["Tool name is required"] else []) ++
  (if strBlank d.description then ["Tool description is required"] else []) ++
  (if strBlank d.version then ["Tool version is required"] else []) ++
  (if d.language ≠ "python" ∧ d.language ≠ "javascript" ∧ d.language ≠ "typescript" then
    ["Unsupported language"] else []) ++
  (if (pyStrip d.code).isEmpty then ["Tool code is required"] else [])

/-- `ExecutionMetadata` dataclass of `models/cached_artifact.py`. -/
structure ExecutionMetadata where
  estimated_memory_mb : Nat
  estimated_cpu_ms : Int
  timeout_seconds : Nat
  requires_network : Bool := false
  requires_filesystem : Bool := false
  deriving DecidableEq, Repr

/-- `CachedToolArtifact` dataclass. -/
structure CachedToolArtifact where
  code_hash : Str
  validated_code : Str
  validation_result : SimpleValidationResult
  dependencies : List String := []
  execution_metadata : ExecutionMetadata
  created_at : String
  usage_count : Nat := 0
  language : String := "python"
  original_code : Option Str := none
  deriving DecidableEq, Repr

/-- `ArtifactStorage._get_artifact_key`. -/
def artifactKey (code_hash : Str) : Str :=
  "artifacts/".toList ++ code_hash ++ ".json".toList

/-- File extension table of `ArtifactStorage._get_code_key`. -/
def codeExtension (language : String) : Str :=
  if language = "python" then "py".toList
  else if language = "javascript" then "js".toList
  else if language = "typescript" then "ts".toList
  else "txt".toList

/-- `ArtifactStorage._get_code_key`. -/
def codeKey (code_hash : Str) (language : String) : Str :=
  "code/".toList ++ code_hash ++ ['.'] ++ codeExtension language

/-- Association-list lookup (DynamoDB `get_item` / S3 `get_object` by key). -/
def lookupKV {κ α : Type _} [DecidableEq κ] : List (κ × α) → κ → Option α
  | [], _ => none
  | (k, v) :: rest, key => if k = key then some v else lookupKV rest key

/-- Removal of a key (DynamoDB `delete_item` / S3 `delete_object`). -/
def eraseKV {κ α : Type _} [DecidableEq κ] : List (κ × α) → κ → List (κ × α)
  | [], _ => []
  | (k, v) :: rest, key =>
      if k = key then eraseKV rest key else (k, v) :: eraseKV rest key

/-- Upsert of a key (DynamoDB `put_item` / S3 `put_object` overwrite). -/
def putKV {κ α : Type _} [DecidableEq κ] (l : List (κ × α)) (k : κ) (v : α) :
    List (κ × α) :=
  (k, v) :: eraseKV l k

/-- The shared mutable world of the lifecycle manager. -/
structure LifecycleState where
  tools : List (String × ToolRecord)
  artifactStore : List (Str × CachedToolArtifact)
  codeStore : List (Str × Str)
  registryLog : List String
  deriving DecidableEq, Repr

/-- `ArtifactStorage.store_artifact`: writes the artifact JSON and the raw
validated code under their two S3 keys. -/
def store_artifact (st : LifecycleState) (a : CachedToolArtifact) : LifecycleState :=
  { st with
    artifactStore := putKV st.artifactStore (artifactKey a.code_hash) a
    codeStore := putKV st.codeStore (codeKey a.code_hash a.language) a.validated_code }

/-- `ArtifactStorage.retrieve_artifact`. -/
def retrieve_artifact (st : LifecycleState) (code_hash : Str) :
    Option CachedToolArtifact :=
  lookupKV st.artifactStore (artifactKey code_hash)

/-- `ArtifactStorage.update_usage_count`: read the whole artifact, bump the
counter, write the whole artifact back; a missing artifact is a StorageError. -/
def update_usage_count (st : LifecycleState) (code_hash : Str) :
    Except String LifecycleState :=
  match retrieve_artifact st code_hash with
  | none => .error "Artifact not found"
  | some a => .ok (store_artifact st { a with usage_count := a.usage_count + 1 })

/-- `ArtifactStorage.delete_artifact`: removes both the metadata record and
the raw code blob. -/
def delete_artifact (st : LifecycleState) (code_hash : Str) (language : String) :
    LifecycleState :=
  { st with
    artifactStore := eraseKV st.artifactStore (artifactKey code_hash)
    codeStore := eraseKV st.codeStore (codeKey code_hash language) }

/-- `ToolRepository.get_by_id`. -/
def repoGet (st : LifecycleState) (tool_id : String) : Option ToolRecord :=
  lookupKV st.tools tool_id

/-- `ToolRepository.create` (DynamoDB `put_item`). -/
def repoCreate (st : LifecycleState) (r : ToolRecord) : LifecycleState :=
  { st with tools := putKV st.tools r.tool_id r }

/-- `ToolRepository.delete`. -/
def repoDelete (st : LifecycleState) (tool_id : String) : LifecycleState :=
  { st with tools := eraseKV st.tools tool_id }

/-- `ToolRepository.update_status`: sets status and refreshes `updatedAt`. -/
def repoUpdateStatus (st : LifecycleState) (tool_id : String) (status : ToolStatus)
    (now : String) : LifecycleState :=
  { st with tools :=
      match lookupKV st.tools tool_id with
      | some r => putKV st.tools tool_id { r with status := status, updated_at := now }
      | none => st.tools }

/-- `ToolRepository.find_by_code_hash`: GSI query with `limit=1` — the first
record (in table order) whose stored `codeHash` matches, else `None`. -/
def findByHash : List (String × ToolRecord) → Str → Option ToolRecord
  | [], _ => none
  | (_, r) :: rest, h => if r.code_hash = some h then some r else findByHash rest h

/-- The error taxonomy of `models/errors.py` as raised by the lifecycle
functions (message text kept where the source interpolates only identifiers). -/
inductive LifecycleErr where
  | validation (message : String) (errors warnings security_issues : List String)
  | registration (message : String) (tool_id agent_id : Option String)
  | storage (message : String) (operation : String)
  deriving DecidableEq, Repr

/-- Execution metadata built by `ValidationCache._create_execution_metadata`
(`int(est.estimated_cpu_seconds * 1000)`; the estimate is nonnegative, so
Python's truncation is the floor). -/
def execution_metadata_of (vr : ValidationResult) : ExecutionMetadata :=
  match vr.resource_estimate with
  | some est =>
      { estimated_memory_mb := est.estimated_memory_mb
        estimated_cpu_ms := (est.estimated_cpu_seconds * 1000).floor
        timeout_seconds := 30 }
  | none =>
      { estimated_memory_mb := 128, estimated_cpu_ms := 1000, timeout_seconds := 30 }

/-- The artifact bundle `ValidationCache.cache_validation_result` stores
(via `create_artifact_bundle`) after a successful fresh validation. -/
def service_cache_artifact (digest : Str → Str) (code : Str) (language : String)
    (vr : ValidationResult) (now : String) : CachedToolArtifact :=
  { code_hash := compute_code_hash digest code language.toList
    validated_code := code
    validation_result := convert_to_simple_result vr
    dependencies := []
    execution_metadata := execution_metadata_of vr
    created_at := now
    usage_count := 0
    language := language
    original_code := some code }

/-- `ValidationService.validate_code` with its state effects: on a cache hit
the converted cached result is re-evaluated and returned, with a best-effort
usage-count bump; on a miss the analyzer outcome `analyzed`
(`CodeValidator.validate_safe`) is evaluated and — when successful — cached
(both effects act on the same S3-backed state the lifecycle manager uses). -/
def service_validate (digest : Str → Str) (policy : SecurityPolicy)
    (st : LifecycleState) (code : Str) (language : String)
    (analyzed : ValidationResult) (now : String) :
    Except ValidationFailure (ValidationResult × List PolicyViolation) × LifecycleState :=
  let h := compute_code_hash digest code language.toList
  match retrieve_artifact st h with
  | some a =>
      let result := validate_code_result policy (some a.validation_result)
        (String.mk h) language analyzed
      let st1 := match update_usage_count st h with
        | .ok st' => st'
        | .error _ => st
      (result, st1)
  | none =>
      match validate_code_result policy none (String.mk h) language analyzed with
      | .ok out =>
          (.ok out, store_artifact st (service_cache_artifact digest code language analyzed now))
      | .error e => (.error e, st)

/-- `ToolLifecycleManager.register_tool`.

`analyzed` is the analyzer outcome for the submitted code, `publish` the
outcome of the external `AgentCoreClient.register_tool`, and
`rollback_delete_ok` whether the compensating `tool_repository.delete`
succeeds.  On the cache-miss path the source binds the `(result, violations)`
tuple returned by `ValidationService.validate_code` and then reads
`validation_result.is_valid` on it, which raises `AttributeError`; the outer
handler wraps that into a `RegistrationError`, so the miss path never reaches
the record-creation steps (the service has already cached the artifact). -/
def register_tool (digest : Str → Str) (policy : SecurityPolicy)
    (st : LifecycleState) (defn : ToolDefinition) (agent_id tool_id now : String)
    (analyzed : ValidationResult) (publish : Except LifecycleErr Unit)
    (rollback_delete_ok : Bool) (skip_cache : Bool := false) :
    Except LifecycleErr ToolRecord × LifecycleState :=
  let structure_errors := validate_structure defn
  if ¬structure_errors.isEmpty then
    (.error (.validation "Tool definition structure is invalid" structure_errors [] []), st)
  else
    let code_hash := compute_code_hash digest defn.code defn.language.toList
    let cached := if skip_cache then none else retrieve_artifact st code_hash
    match cached with
    | none =>
        match service_validate digest policy st defn.code defn.language analyzed now with
        | (.error e, st') =>
            (.error (.validation e.message e.errors e.warnings e.security_issues), st')
        | (.ok _, st') =>
            (.error (.registration
              "Tool registration failed: tuple object has no attribute is_valid"
              none (some agent_id)), st')
    | some _ =>
        match update_usage_count st code_hash with
        | .error m => (.error (.storage m "update_usage_count"), st)
        | .ok st1 =>
            let record := ToolRecord.create_new tool_id agent_id defn.name
              defn.description defn.version (artifactKey code_hash) code_hash
              defn.language now
            let st2 := repoCreate st1 record
            let st3 := { st2 with registryLog := st2.registryLog ++ ["register " ++ tool_id] }
            match publish with
            | .ok _ => (.ok record, st3)
            | .error (.registration m t a) =>
                let st4 := if rollback_delete_ok then repoDelete st3 tool_id else st3
                (.error (.registration m t a), st4)
            | .error e => (.error e, st3)

/-- `ToolLifecycleManager.get_tool_status`. -/
def get_tool_status (st : LifecycleState) (tool_id : String) :
    Except LifecycleErr (ToolStatus × String × Nat) :=
  match repoGet st tool_id with
  | none => .error (.storage ("Tool not found: " ++ tool_id) "get_tool_status")
  | some r => .ok (r.status, r.version, r.execution_count)

/-- `ToolLifecycleManager.update_tool`.

On the changed-code path the source hits the same tuple-attribute bug as
`register_tool` right after a successful validation; on the unchanged-code
path it persists the mutable fields (the repository's update expression does
not write `codeHash`/`language`) with a refreshed `updatedAt`, best-effort
syncs metadata to the gateway, and returns the in-memory record. -/
def update_tool (digest : Str → Str) (policy : SecurityPolicy)
    (st : LifecycleState) (tool_id : String) (defn : ToolDefinition)
    (agent_id now : String) (analyzed : ValidationResult) :
    Except LifecycleErr ToolRecord × LifecycleState :=
  match repoGet st tool_id with
  | none => (.error (.registration ("Tool not found: " ++ tool_id) (some tool_id) none), st)
  | some existing =>
      if existing.agent_id ≠ agent_id then
        (.error (.registration ("Agent " ++ agent_id ++ " does not own tool " ++ tool_id)
          (some tool_id) (some agent_id)), st)
      else
        let structure_errors := validate_structure defn
        if ¬structure_errors.isEmpty then
          (.error (.validation "Tool definition structure is invalid" structure_errors [] []), st)
        else
          let new_hash := compute_code_hash digest defn.code defn.language.toList
          if some new_hash ≠ existing.code_hash then
            match service_validate digest policy st defn.code defn.language analyzed now with
            | (.error e, st') =>
                (.error (.validation e.message e.errors e.warnings e.security_issues), st')
            | (.ok _, st') =>
                (.error (.registration
                  "Tool update failed: tuple object has no attribute is_valid"
                  (some tool_id) (some agent_id)), st')
          else
            let returned := { existing with
              name := defn.name, description := defn.description,
              version := defn.version, code_hash := some new_hash,
              language := defn.language, updated_at := now }
            let persisted := { existing with
              name := defn.name, description := defn.description,
              version := defn.version, updated_at := now }
            let st1 := { st with tools := putKV st.tools tool_id persisted }
            let st2 := { st1 with registryLog := st1.registryLog ++ ["sync " ++ tool_id] }
            (.ok returned, st2)

/-- `ToolLifecycleManager.deregister_tool`.

The remote deregistration is best-effort (logged; its failure does not stop
local cleanup).  With `delete_artifact` the record is hard-deleted, and the
artifact objects are physically deleted only when no other record still
references the content hash (`find_by_code_hash` after the record deletion);
without it the record is soft-transitioned to INACTIVE. -/
def deregister_tool (st : LifecycleState) (tool_id agent_id : String)
    (deleteArtifact : Bool) (now : String) :
    Except LifecycleErr Unit × LifecycleState :=
  match repoGet st tool_id with
  | none => (.error (.registration ("Tool not found: " ++ tool_id) (some tool_id) none), st)
  | some record =>
      if record.agent_id ≠ agent_id then
        (.error (.registration ("Agent " ++ agent_id ++ " does not own tool " ++ tool_id)
          (some tool_id) (some agent_id)), st)
      else
        let st1 := { st with registryLog := st.registryLog ++ ["deregister " ++ tool_id] }
        let st2 := if deleteArtifact then repoDelete st1 tool_id
                   else repoUpdateStatus st1 tool_id .inactive now
        if deleteArtifact then
          match record.code_hash with
          | some h =>
              if ¬h.isEmpty then
                match findByHash st2.tools h with
                | none => (.ok (), delete_artifact st2 h record.language)
                | some other =>
                    if other.tool_id = tool_id then
                      (.ok (), delete_artifact st2 h record.language)
                    else (.ok (), st2)
              else (.ok (), st2)
          | none => (.ok (), st2)
        else (.ok (), st2)

/-! ## Concrete example inputs -/

/-- Parse tree of the spec example `def f(n): return f(n-1)`:
`Module[FunctionDef f(arguments[arg n], Return(Call(Name f, BinOp(Name n, Sub, Constant 1))))]`. -/
def recursiveFnTree : PyAst :=
  .module [.functionDef "f"
    [.other [.leaf "arg n"],
     .other [.call (some "f")
       [.leaf "Name f", .other [.leaf "Name n", .leaf "Sub", .leaf "Constant 1"]]]]]

/-- Parse tree of `def f(): pass` followed by `f()`: the declared function is
called exactly once. -/
def singleCallTree : PyAst :=
  .module [.functionDef "f" [.leaf "arguments", .leaf "pass"],
           .other [.call (some "f") [.leaf "Name f"]]]

/-- Count of `Call` nodes whose callee name is `name` (the call sites of the
claim, excluding declarations). -/
def pyCallCount (name : String) (l : List PyAst) : Nat :=
  l.countP (fun n => match n with
    | .call (some f) _ => f == name
    | _ => false)

/-- A JS source declaring one function and calling it exactly once. -/
def jsSingleCallCode : Str := "function f(x) x\nf(1)".toList

/-- A JS source containing two `for` loop constructs. -/
def jsTwoForLoopCode : Str := "for (i) x\nfor (j) y".toList

/-- The recursion violation produced by `_check_resource_limits`. -/
def recursionViolation : PolicyViolation :=
  { violation_type := .resourceLimit, rule_id := "RES001", severity := "high",
    message := "Recursion is not allowed by security policy",
    remediation := some "Convert recursive logic to iterative approach" }

/-- Parse tree of the benign assignment `x = 1`. -/
def assignTree : PyAst := .module [.other [.leaf "Name x", .leaf "Constant 1"]]

/-- Analyzer outcome for the benign assignment. -/
def sampleAnalyzed : ValidationResult := py_analyze assignTree "hash1"

/-- An empty world: no tools, no artifacts, no registry interaction. -/
def emptyState : LifecycleState :=
  { tools := [], artifactStore := [], codeStore := [], registryLog := [] }

/-- A structurally valid Python tool definition. -/
def sampleDefn : ToolDefinition :=
  { name := "adder", description := "adds numbers", version := "1.0.0",
    language := "python", code := "x = 1".toList }

/-- A cached artifact for `sampleDefn`'s content hash (digest = identity). -/
def sampleArtifact : CachedToolArtifact :=
  { code_hash := hashContent "x = 1".toList "python".toList
    validated_code := "x = 1".toList
    validation_result := { is_valid := true }
    execution_metadata :=
      { estimated_memory_mb := 128, estimated_cpu_ms := 1000, timeout_seconds := 30 }
    created_at := "t0" }

/-- A world whose artifact cache already holds `sampleArtifact`. -/
def cachedState : LifecycleState :=
  { tools := []
    artifactStore := [(artifactKey sampleArtifact.code_hash, sampleArtifact)]
    codeStore := []
    registryLog := [] }

/-- A persisted record owned by agent-A. -/
def ownedRecord : ToolRecord :=
  { tool_id := "tool-1", agent_id := "agent-A", name := "t", description := "d",
    version := "1", status := .active, code_artifact_s3_key := [],
    created_at := "t0", updated_at := "t0" }

/-- A world holding `ownedRecord`. -/
def ownedState : LifecycleState :=
  { tools := [("tool-1", ownedRecord)], artifactStore := [], codeStore := [],
    registryLog := [] }

/-- Shared content hash for the deletion-safety scenario. -/
def sharedHash : Str := "sharedhash".toList

/-- Tool A referencing the shared hash. -/
def toolA : ToolRecord :=
  { tool_id := "A", agent_id := "agent-1", name := "a", description := "da",
    version := "1", status := .active, code_artifact_s3_key := artifactKey sharedHash,
    created_at := "t0", updated_at := "t0", code_hash := some sharedHash }

/-- Tool B referencing the same shared hash. -/
def toolB : ToolRecord :=
  { tool_id := "B", agent_id := "agent-2", name := "b", description := "db",
    version := "1", status := .active, code_artifact_s3_key := artifactKey sharedHash,
    created_at := "t0", updated_at := "t0", code_hash := some sharedHash }

/-- The shared artifact. -/
def sharedArtifact : CachedToolArtifact :=
  { code_hash := sharedHash
    validated_code := "x = 1".toList
    validation_result := { is_valid := true }
    execution_metadata :=
      { estimated_memory_mb := 128, estimated_cpu_ms := 1000, timeout_seconds := 30 }
    created_at := "t0" }

/-- World with both tools referencing the shared artifact. -/
def sharedStateAB : LifecycleState :=
  { tools := [("A", toolA), ("B", toolB)]
    artifactStore := [(artifactKey sharedHash, sharedArtifact)]
    codeStore := [(codeKey sharedHash "python", "x = 1".toList)]
    registryLog := [] }

/-- World with only tool A referencing the shared artifact. -/
def sharedStateA : LifecycleState :=
  { tools := [("A", toolA)]
    artifactStore := [(artifactKey sharedHash, sharedArtifact)]
    codeStore := [(codeKey sharedHash "python", "x = 1".toList)]
    registryLog := [] }

theorem pyStrip_dropWhile (s : Str) :
    List.dropWhile isPySpace (pyStrip s) = pyStrip s := by
  unfold pyStrip
  rcases h : List.rdropWhile isPySpace (List.dropWhile isPySpace s) with _ | ⟨a, t⟩
  · simp
  · rw [List.dropWhile_eq_self_iff]
    intro _ hp
    simp only [List.get] at hp
    obtain ⟨u, hu⟩ := List.rdropWhile_prefix isPySpace (List.dropWhile isPySpace s)
    rw [h] at hu
    rcases hd : List.dropWhile isPySpace s with _ | ⟨b, r⟩
    · rw [hd] at hu; simp at hu
    · have hidem := List.dropWhile_idempotent (p := isPySpace) (l := s)
      rw [hd] at hidem
      rw [hd] at hu
      have hab : a = b := by
        have := congrArg List.head? hu; simpa using this
      rw [hab] at hp
      by_cases hb : isPySpace b
      · rw [List.dropWhile_cons, if_pos hb] at hidem
        have hlen := congrArg List.length hidem
        have hle := (List.dropWhile_suffix (l := r) isPySpace).length_le
        simp at hlen
        omega
      · exact hb hp

theorem pyStrip_idem (s : Str) : pyStrip (pyStrip s) = pyStrip s := by
  show List.rdropWhile isPySpace (List.dropWhile isPySpace (pyStrip s)) = pyStrip s
  rw [pyStrip_dropWhile]
  show List.rdropWhile isPySpace (List.rdropWhile isPySpace (List.dropWhile isPySpace s)) = _
  rw [List.rdropWhile_idempotent]
  rfl

theorem hashContent_lang_inj (code lang₁ lang₂ : Str) (h : lang₁ ≠ lang₂) :
    hashContent code lang₁ ≠ hashContent code lang₂ := by
  unfold hashContent
  intro he
  rw [List.append_assoc, List.append_assoc] at he
  exact h (List.append_cancel_right he)

/-- C6: `compute_code_hash` is deterministic (equal inputs give equal digests),
insensitive to leading/trailing whitespace of the source
(`hash(lang, s) = hash(lang, s.strip())`), and — for any collision-free
digest — the same source hashed under two distinct language tags yields two
distinct hashes. -/
theorem compute_code_hash_correct (digest : Str → Str)
    (hinj : Function.Injective digest) (code code' lang lang₁ lang₂ : Str) :
    (code = code' → compute_code_hash digest code lang = compute_code_hash digest code' lang) ∧
    compute_code_hash digest code lang = compute_code_hash digest (pyStrip code) lang ∧
    (lang₁ ≠ lang₂ →
      compute_code_hash digest code lang₁ ≠ compute_code_hash digest code lang₂) := by
  refine ⟨fun h => by rw [h], ?_, fun h => ?_⟩
  · unfold compute_code_hash hashContent
    rw [pyStrip_idem]
  · unfold compute_code_hash
    intro he
    exact hashContent_lang_inj code lang₁ lang₂ h (hinj he)

/-- Witness for C6 at concrete inputs, with the identity as (injective) digest:
hashing `"  x "` equals hashing its strip `"x"` under `"python"`, and the
`"python"`/`"javascript"` tags separate the same source. -/
theorem compute_code_hash_correct_witness :
    compute_code_hash id "  x ".toList "python".toList =
      compute_code_hash id (pyStrip "  x ".toList) "python".toList ∧
    compute_code_hash id "x".toList "python".toList ≠
      compute_code_hash id "x".toList "javascript".toList := by
  have h := compute_code_hash_correct id (fun _ _ h => h)
    "  x ".toList "  x ".toList "python".toList "python".toList "javascript".toList
  exact ⟨h.2.1, by
    have h2 := compute_code_hash_correct id (fun _ _ h => h)
      "x".toList "x".toList "python".toList "python".toList "javascript".toList
    exact h2.2.2 (by decide)⟩

theorem PyAst.sizeList_append (a b : List PyAst) :
    PyAst.sizeList (a ++ b) = PyAst.sizeList a + PyAst.sizeList b := by
  induction a with
  | nil => simp [PyAst.sizeList]
  | cons x xs ih =>
      simp [PyAst.sizeList, ih]
      omega

theorem PyAst.sizeList_childNodes_lt (n : PyAst) :
    PyAst.sizeList n.childNodes < PyAst.size n := by
  cases n <;> simp [PyAst.childNodes, PyAst.size, PyAst.sizeList] <;> try omega

theorem PyAst.sizeList_flatMap_lt (l : List PyAst) (h : l ≠ []) :
    PyAst.sizeList (l.flatMap PyAst.childNodes) < PyAst.sizeList l := by
  induction l with
  | nil => exact absurd rfl h
  | cons x xs ih =>
      rcases xs with _ | ⟨y, ys⟩
      · simpa [PyAst.sizeList, PyAst.sizeList_append] using
          PyAst.sizeList_childNodes_lt x
      · have h1 := PyAst.sizeList_childNodes_lt x
        have h2 := ih (by simp)
        simp only [List.flatMap_cons, PyAst.sizeList_append, PyAst.sizeList] at h2 ⊢
        omega

/-- Any fuel of at least the total size of the pending level computes the full
breadth-first walk, so `pyWalk`'s fuel choice (`t.size`) is immaterial. -/
theorem walkLevels_fuel_irrelevant (f₁ : Nat) :
    ∀ (f₂ : Nat) (l : List PyAst), PyAst.sizeList l ≤ f₁ → PyAst.sizeList l ≤ f₂ →
      walkLevels f₁ l = walkLevels f₂ l := by
  induction f₁ using Nat.strong_induction_on with
  | _ f₁ ih =>
    intro f₂ l h1 h2
    rcases l with _ | ⟨n, rest⟩
    · cases f₁ <;> cases f₂ <;> rfl
    · have hpos : 1 ≤ PyAst.sizeList (n :: rest) := by
        have := PyAst.sizeList_childNodes_lt n
        simp [PyAst.sizeList]
        omega
      rcases f₁ with _ | f₁
      · omega
      rcases f₂ with _ | f₂
      · omega
      have hlt := PyAst.sizeList_flatMap_lt (n :: rest) (by simp)
      simp only [walkLevels]
      rw [ih f₁ (by omega) f₂ ((n :: rest).flatMap PyAst.childNodes) (by omega) (by omega)]

theorem estimateFold_eq (l : List PyAst) (s : PyEstState) :
    l.foldl estimateStep s =
      { function_names := namesFold s.function_names l
        has_loops := s.has_loops || decide (0 < loopCount l)
        has_recursion := s.has_recursion || decide (0 < recCallCount s.function_names l)
        complexity := s.complexity + 2 * loopCount l + 5 * recCallCount s.function_names l } := by
  induction l generalizing s with
  | nil => simp [namesFold, loopCount, recCallCount]
  | cons n rest ih =>
    rw [List.foldl_cons, ih]
    cases n with
    | module k =>
        simp [estimateStep, PyAst.isLoop, namesFold, loopCount, recCallCount, List.countP_cons]
    | functionDef f k =>
        simp [estimateStep, PyAst.isLoop, namesFold, loopCount, recCallCount, List.countP_cons]
    | forStmt k =>
        simp [estimateStep, PyAst.isLoop, namesFold, loopCount, recCallCount, List.countP_cons]
        omega
    | whileStmt k =>
        simp [estimateStep, PyAst.isLoop, namesFold, loopCount, recCallCount, List.countP_cons]
        omega
    | call f k =>
        rcases f with _ | f
        · simp [estimateStep, PyAst.isLoop, namesFold, loopCount, recCallCount, List.countP_cons]
        · by_cases hf : f ∈ s.function_names <;>
            simp [estimateStep, PyAst.isLoop, hf, namesFold, loopCount, recCallCount,
              List.countP_cons] <;> omega
    | importStmt ms =>
        simp [estimateStep, PyAst.isLoop, namesFold, loopCount, recCallCount, List.countP_cons]
    | importFrom m =>
        simp [estimateStep, PyAst.isLoop, namesFold, loopCount, recCallCount, List.countP_cons]
    | leaf tag =>
        simp [estimateStep, PyAst.isLoop, namesFold, loopCount, recCallCount, List.countP_cons]
    | other k =>
        simp [estimateStep, PyAst.isLoop, namesFold, loopCount, recCallCount, List.countP_cons]

theorem check_resource_limits_eq_table (limits : ResourceLimits) (est : ResourceEstimate) :
    check_resource_limits limits est =
      ((resourceCheckTable limits est).filter (fun b => b.1)).map (fun b => b.2) := by
  unfold check_resource_limits resourceCheckTable
  by_cases h1 : est.estimated_memory_mb > limits.max_memory_mb <;>
  by_cases h2 : est.estimated_cpu_seconds > limits.max_cpu_seconds <;>
  by_cases h3 : est.complexity_score > limits.max_complexity <;>
  by_cases h4 : est.max_depth > limits.max_nesting_depth <;>
  by_cases h5 : (est.has_recursion && !limits.allow_recursion) = true <;>
  simp [h1, h2, h3, h4, h5, List.filter]

/-- C9: for every validation result and policy, `evaluate` returns the fired
resource-limit checks first — drawn, in the fixed order memory / cpu /
complexity / nesting depth / recursion-not-allowed, from a table with at most
one RES001 violation per check — followed by exactly one violation per
security issue, so its length is the number of fired checks plus the number of
issues; and every resource violation carries rule id RES001 with type
`resource_limit`. -/
theorem evaluate_ordered_structure (policy : SecurityPolicy) (vr : ValidationResult) :
    evaluate policy vr =
      resourceViolationsSpec policy.resource_limits vr.resource_estimate
        ++ vr.security_issues.map violation_of_issue ∧
    (evaluate policy vr).length =
      firedChecks policy.resource_limits vr.resource_estimate
        + vr.security_issues.length ∧
    (resourceViolationsSpec policy.resource_limits vr.resource_estimate).all
      (fun v => v.rule_id = "RES001" && v.violation_type = PolicyViolationType.resourceLimit) = true := by
  have hmain : evaluate policy vr =
      resourceViolationsSpec policy.resource_limits vr.resource_estimate
        ++ vr.security_issues.map violation_of_issue := by
    unfold evaluate resourceViolationsSpec
    cases vr.resource_estimate with
    | none => simp
    | some est => simp [check_resource_limits_eq_table]
  refine ⟨hmain, ?_, ?_⟩
  · rw [hmain]
    unfold resourceViolationsSpec firedChecks
    cases vr.resource_estimate with
    | none => simp
    | some est => simp [List.countP_eq_length_filter]
  · unfold resourceViolationsSpec
    cases vr.resource_estimate with
    | none => simp
    | some est =>
      unfold resourceCheckTable
      simp only [List.all_eq_true, List.mem_map, List.mem_filter]
      rintro v ⟨⟨b, w⟩, ⟨hb, _⟩, rfl⟩
      fin_cases hb <;> simp

/-- C10: a cache hit reconstructs the validation result with every security
issue at severity high and issue type `"cached_issue"` and with no resource
estimate; re-evaluating it against any current policy therefore never yields a
critical violation nor a resource-limit violation, and `validate_code` on the
cache-hit path returns without raising, whatever the cached issues were. -/
theorem cache_hit_never_critical (policy : SecurityPolicy)
    (simple : SimpleValidationResult) (code_hash language : String)
    (analyzed : ValidationResult) :
    (convert_to_detailed_result simple code_hash language).resource_estimate = none ∧
    (convert_to_detailed_result simple code_hash language).security_issues.all
      (fun i => decide (i.severity = SeverityLevel.high) &&
        decide (i.issue_type = "cached_issue")) = true ∧
    (evaluate policy (convert_to_detailed_result simple code_hash language)).all
      (fun v => decide (v.severity ≠ "critical") &&
        decide (v.violation_type ≠ PolicyViolationType.resourceLimit)) = true ∧
    exceptOk (validate_code_result policy (some simple) code_hash language analyzed) = true := by
  refine ⟨rfl, ?_, ?_, rfl⟩
  · simp [convert_to_detailed_result, List.all_eq_true, List.mem_map]
  · simp [convert_to_detailed_result, evaluate, List.all_eq_true, List.mem_map,
      violation_of_issue, map_issue_to_violation_type, SeverityLevel.value]

theorem jsLoopFold_eq (code : Str) (pats : List (Str × Char)) (st : Bool × Nat) :
    pats.foldl
        (fun st p => if searchPat p.1 p.2 code then (true, st.2 + 2) else st) st
      = (st.1 || pats.any (fun p => searchPat p.1 p.2 code),
         st.2 + 2 * pats.countP (fun p => searchPat p.1 p.2 code)) := by
  induction pats generalizing st with
  | nil => simp
  | cons x xs ih =>
      by_cases h : searchPat x.1 x.2 code <;>
        simp [h, ih, List.countP_cons] <;> omega

theorem jsRecFold_eq (code : Str) (names : List Str) (st : Bool × Nat) :
    names.foldl
        (fun st f => if 1 < count_call_sites f code then (true, st.2 + 5) else st) st
      = (st.1 || names.any (fun f => decide (1 < count_call_sites f code)),
         st.2 + 5 * names.countP (fun f => decide (1 < count_call_sites f code))) := by
  induction names generalizing st with
  | nil => simp
  | cons x xs ih =>
      by_cases h : 1 < count_call_sites x code <;>
        simp [h, ih, List.countP_cons] <;> omega

/-- C8: in both language paths the estimate satisfies
`estimated_memory_mb = min (64 + 2·complexity) 512` and
`estimated_cpu_seconds = min (0.1 + 0.05·complexity + 0.5·[has_loops] +
1.0·[has_recursion]) 30`, where complexity starts at 1 and is increased by 2
per loop increment (one per loop node in the Python walk; one per loop-pattern
kind present in the JS scan) and by 5 per recursion increment (one per
recursive-looking call in the Python walk; one per declared JS name occurring
more than once as a call pattern). -/
theorem resource_estimate_formulas (t : PyAst) (code : Str) :
    ((py_estimate_resources t).estimated_memory_mb
        = min (64 + 2 * (py_estimate_resources t).complexity_score) 512 ∧
      (py_estimate_resources t).estimated_cpu_seconds
        = min (0.1 + 0.05 * ((py_estimate_resources t).complexity_score : ℚ)
            + (if (py_estimate_resources t).has_loops then 0.5 else 0)
            + (if (py_estimate_resources t).has_recursion then 1 else 0)) 30 ∧
      (py_estimate_resources t).complexity_score
        = 1 + 2 * loopCount (pyWalk t) + 5 * recCallCount [] (pyWalk t)) ∧
    ((js_estimate_resources code).estimated_memory_mb
        = min (64 + 2 * (js_estimate_resources code).complexity_score) 512 ∧
      (js_estimate_resources code).estimated_cpu_seconds
        = min (0.1 + 0.05 * ((js_estimate_resources code).complexity_score : ℚ)
            + (if (js_estimate_resources code).has_loops then 0.5 else 0)
            + (if (js_estimate_resources code).has_recursion then 1 else 0)) 30 ∧
      (js_estimate_resources code).complexity_score
        = 1 + 2 * jsLoopKindCount code + 5 * jsRecNameCount code) := by
  refine ⟨⟨?_, ?_, ?_⟩, ⟨?_, ?_, ?_⟩⟩
  · simp only [py_estimate_resources]
    ring_nf
  · simp only [py_estimate_resources]
    ring_nf
  · simp only [py_estimate_resources]
    rw [estimateFold_eq]
    simp [initEstState]
  · simp only [js_estimate_resources, jsLoopFold_eq, jsRecFold_eq]
    ring_nf
  · simp only [js_estimate_resources, jsLoopFold_eq, jsRecFold_eq]
    ring_nf
  · simp only [js_estimate_resources, jsLoopFold_eq, jsRecFold_eq, jsRecNameCount,
      jsLoopKindCount]

/-- C8 counterexample: the JS path does not add 2 per loop construct.  A
source with two `for (` loop constructs (the `\bfor\s*\(` pattern matches
twice) and no recursion gets complexity 3 (= 1 + 2 for the one loop-pattern
kind present), not the 5 the per-construct rule would give. -/
theorem js_two_loops_complexity_counterexample :
    count_call_sites "for".toList jsTwoForLoopCode = 2 ∧
    (js_estimate_resources jsTwoForLoopCode).has_loops = true ∧
    (js_estimate_resources jsTwoForLoopCode).has_recursion = false ∧
    (js_estimate_resources jsTwoForLoopCode).complexity_score = 3 := by decide

/-- C7 counterexample: the recursion flag fires on sources whose declared
functions are each called at most once.  For the Python program
`def f(): pass` + `f()` the single declared function `f` has exactly one call
site, yet `has_recursion` is flagged; likewise for the JS source
`function f(x) x`, `f(1)` (whose name-call pattern also matches the
declaration, giving a count of 2 for one call site). -/
theorem single_call_flagged_counterexample :
    namesFold [] (pyWalk singleCallTree) = ["f"] ∧
    pyCallCount "f" (pyWalk singleCallTree) = 1 ∧
    (py_estimate_resources singleCallTree).has_recursion = true ∧
    js_function_names jsSingleCallCode = ["f".toList] ∧
    count_call_sites "f".toList jsSingleCallCode = 2 ∧
    (js_estimate_resources jsSingleCallCode).has_recursion = true := by
  exact ⟨by decide, by decide, by decide, by decide, by decide, by decide⟩

/-- C7 amended: the Python path flags `has_recursion` exactly when some call
node refers to a function name recorded earlier in the breadth-first walk (a
single call suffices); the JS path flags it exactly when some declared
function name, followed by optional whitespace and `(`, occurs more than once
in the source — a count that includes the declaration itself. -/
theorem has_recursion_characterization (t : PyAst) (code : Str) :
    (py_estimate_resources t).has_recursion
      = decide (0 < recCallCount [] (pyWalk t)) ∧
    (js_estimate_resources code).has_recursion
      = (js_function_names code).any (fun f => decide (1 < count_call_sites f code)) := by
  constructor
  · simp only [py_estimate_resources]
    rw [estimateFold_eq]
    simp [initEstState]
  · simp only [js_estimate_resources, jsRecFold_eq]
    simp

theorem recursiveFnTree_estimate :
    py_estimate_resources recursiveFnTree =
      { estimated_memory_mb := 76, estimated_cpu_seconds := 1.4,
        complexity_score := 6, has_loops := false, has_recursion := true,
        max_depth := 8 } := by
  have h1 : (pyWalk recursiveFnTree).foldl estimateStep initEstState
      = ⟨["f"], false, true, 6⟩ := by decide
  have h2 : pyMaxDepth recursiveFnTree = 8 := by decide
  simp only [py_estimate_resources, h1, h2]
  norm_num

theorem recursiveFnTree_analysis :
    py_analyze recursiveFnTree "hash" =
      { is_valid := true, language := "python", code_hash := "hash",
        resource_estimate := some (py_estimate_resources recursiveFnTree) } := by
  have hissues : analyze_ast_issues recursiveFnTree = [] := by decide
  simp [py_analyze, hissues]

theorem recursiveFnTree_eval_default :
    evaluate get_default_policy (py_analyze recursiveFnTree "hash")
      = [recursionViolation] := by
  rw [recursiveFnTree_analysis]
  simp only [evaluate, recursiveFnTree_estimate]
  norm_num [check_resource_limits, get_default_policy, recursionViolation]

theorem recursiveFnTree_eval_permissive :
    evaluate get_permissive_policy (py_analyze recursiveFnTree "hash") = [] := by
  rw [recursiveFnTree_analysis]
  simp only [evaluate, recursiveFnTree_estimate]
  norm_num [check_resource_limits, get_permissive_policy, get_default_policy]

/-- C3 counterexample: validating `def f(n): return f(n-1)` under the default
policy does not fail — the recursion violation has severity high, not
critical, so `validate_code` returns normally. -/
theorem recursion_example_not_rejected :
    exceptOk (validate_code_result get_default_policy none "hash" "python"
      (py_analyze recursiveFnTree "hash")) = true := by
  simp only [validate_code_result, recursiveFnTree_eval_default]
  rw [recursiveFnTree_analysis]
  simp [has_critical_violations, recursionViolation, exceptOk]

/-- C3 amended: submitting `def f(n): return f(n-1)` succeeds under both
canonical policies; under the default policy the returned violation list is
exactly one RES001 resource-limit violation of severity high citing
recursion, while under the permissive policy (which allows recursion) the
violation list is empty — the policies diverge in the reported violations,
not in acceptance. -/
theorem recursion_example_policy_divergence :
    validate_code_result get_default_policy none "hash" "python"
        (py_analyze recursiveFnTree "hash")
      = .ok (py_analyze recursiveFnTree "hash", [recursionViolation]) ∧
    validate_code_result get_permissive_policy none "hash" "python"
        (py_analyze recursiveFnTree "hash")
      = .ok (py_analyze recursiveFnTree "hash", []) := by
  constructor
  · simp only [validate_code_result, recursiveFnTree_eval_default]
    rw [recursiveFnTree_analysis]
    simp [has_critical_violations, recursionViolation]
  · simp only [validate_code_result, recursiveFnTree_eval_permissive]
    rw [recursiveFnTree_analysis]
    simp [has_critical_violations]

theorem lookupKV_eraseKV_self {κ α : Type _} [DecidableEq κ] (l : List (κ × α)) (k : κ) :
    lookupKV (eraseKV l k) k = none := by
  induction l with
  | nil => rfl
  | cons kv rest ih =>
      rcases kv with ⟨k', v⟩
      by_cases h : k' = k <;> simp [eraseKV, h, lookupKV, ih]

theorem mem_of_mem_eraseKV {κ α : Type _} [DecidableEq κ] {l : List (κ × α)} {k : κ}
    {kv : κ × α} (hm : kv ∈ eraseKV l k) : kv ∈ l ∧ kv.1 ≠ k := by
  induction l with
  | nil => simp [eraseKV] at hm
  | cons kv' rest ih =>
      rcases kv' with ⟨k', v⟩
      by_cases h : k' = k
      · simp only [eraseKV, if_pos h] at hm
        have := ih hm
        exact ⟨List.mem_cons_of_mem _ this.1, this.2⟩
      · simp only [eraseKV, if_neg h] at hm
        rcases List.mem_cons.mp hm with h1 | h1
        · subst h1
          exact ⟨List.mem_cons_self _ _, h⟩
        · have := ih h1
          exact ⟨List.mem_cons_of_mem _ this.1, this.2⟩

theorem mem_eraseKV_of_mem {κ α : Type _} [DecidableEq κ] {l : List (κ × α)} {k : κ}
    {kv : κ × α} (hm : kv ∈ l) (hk : kv.1 ≠ k) : kv ∈ eraseKV l k := by
  induction l with
  | nil => simp at hm
  | cons kv' rest ih =>
      rcases List.mem_cons.mp hm with h1 | h1
      · subst h1
        rcases kv with ⟨k', v⟩
        simp only [eraseKV, if_neg hk]
        exact List.mem_cons_self _ _
      · rcases kv' with ⟨k', v⟩
        by_cases h : k' = k
        · simp only [eraseKV, if_pos h]
          exact ih h1
        · simp only [eraseKV, if_neg h]
          exact List.mem_cons_of_mem _ (ih h1)

theorem findByHash_eq_none_iff (l : List (String × ToolRecord)) (h : Str) :
    findByHash l h = none ↔ ∀ kv ∈ l, (kv : String × ToolRecord).2.code_hash ≠ some h := by
  induction l with
  | nil => simp [findByHash]
  | cons kv rest ih =>
      rcases kv with ⟨k, r⟩
      by_cases hc : r.code_hash = some h <;> simp [findByHash, hc, ih]

theorem findByHash_some_mem {l : List (String × ToolRecord)} {h : Str} {r : ToolRecord}
    (hf : findByHash l h = some r) :
    ∃ k, (k, r) ∈ l ∧ r.code_hash = some h := by
  induction l with
  | nil => simp [findByHash] at hf
  | cons kv rest ih =>
      rcases kv with ⟨k', r'⟩
      by_cases hc : r'.code_hash = some h
      · simp only [findByHash, if_pos hc] at hf
        cases hf
        exact ⟨k', List.mem_cons_self _ _, hc⟩
      · simp only [findByHash, if_neg hc] at hf
        obtain ⟨k, hm, hh⟩ := ih hf
        exact ⟨k, List.mem_cons_of_mem _ hm, hh⟩

/-- C4: a call to `update_tool` or `deregister_tool` whose caller agent id
differs from the stored record's owner fails with a RegistrationError naming
the ownership mismatch, and leaves the entire world — the persisted record,
the artifact and code stores, and the registry-interaction log — exactly as
it was. -/
theorem ownership_mismatch_rejected (digest : Str → Str) (policy : SecurityPolicy)
    (st : LifecycleState) (tool_id : String) (defn : ToolDefinition)
    (agent_id now : String) (analyzed : ValidationResult) (deleteArtifact : Bool)
    (r : ToolRecord) (hr : repoGet st tool_id = some r)
    (hneq : r.agent_id ≠ agent_id) :
    update_tool digest policy st tool_id defn agent_id now analyzed
      = (.error (.registration ("Agent " ++ agent_id ++ " does not own tool " ++ tool_id)
          (some tool_id) (some agent_id)), st) ∧
    deregister_tool st tool_id agent_id deleteArtifact now
      = (.error (.registration ("Agent " ++ agent_id ++ " does not own tool " ++ tool_id)
          (some tool_id) (some agent_id)), st) := by
  constructor
  · simp only [update_tool, hr]
    rw [if_pos hneq]
  · simp only [deregister_tool, hr]
    rw [if_pos hneq]

/-- Witness for C4 at a concrete world: agent-B can neither update nor
deregister agent-A's tool, and the world is untouched. -/
theorem ownership_mismatch_rejected_witness :
    update_tool id get_default_policy ownedState "tool-1" sampleDefn "agent-B" "t1"
        sampleAnalyzed
      = (.error (.registration "Agent agent-B does not own tool tool-1"
          (some "tool-1") (some "agent-B")), ownedState) ∧
    deregister_tool ownedState "tool-1" "agent-B" true "t1"
      = (.error (.registration "Agent agent-B does not own tool tool-1"
          (some "tool-1") (some "agent-B")), ownedState) := by
  have h := ownership_mismatch_rejected id get_default_policy ownedState "tool-1"
    sampleDefn "agent-B" "t1" sampleAnalyzed true ownedRecord (by decide) (by decide)
  exact h

/-- C2: when the ToolRecord has been persisted (cache-hit registration path)
and the remote publish then fails with a RegistrationError, the original
publish failure is re-raised unchanged — whether or not the compensating
delete succeeds (its own failure is only logged) — and when the compensating
delete does succeed, the just-persisted record is gone: a status query for
the tool id reports it not found. -/
theorem register_publish_failure_rollback (digest : Str → Str)
    (policy : SecurityPolicy) (st : LifecycleState) (defn : ToolDefinition)
    (agent_id tool_id now : String) (analyzed : ValidationResult)
    (a : CachedToolArtifact) (m : String) (t aid : Option String)
    (rollback_delete_ok : Bool)
    (hstruct : validate_structure defn = [])
    (hhit : retrieve_artifact st
      (compute_code_hash digest defn.code defn.language.toList) = some a) :
    (register_tool digest policy st defn agent_id tool_id now analyzed
        (.error (.registration m t aid)) rollback_delete_ok).1
      = .error (.registration m t aid) ∧
    (rollback_delete_ok = true →
      repoGet (register_tool digest policy st defn agent_id tool_id now analyzed
          (.error (.registration m t aid)) rollback_delete_ok).2 tool_id = none ∧
      get_tool_status (register_tool digest policy st defn agent_id tool_id now
          analyzed (.error (.registration m t aid)) rollback_delete_ok).2 tool_id
        = .error (.storage ("Tool not found: " ++ tool_id) "get_tool_status")) := by
  have hreg : register_tool digest policy st defn agent_id tool_id now analyzed
      (.error (.registration m t aid)) rollback_delete_ok
      = (.error (.registration m t aid),
         if rollback_delete_ok then
           repoDelete { repoCreate (store_artifact st { a with usage_count := a.usage_count + 1 })
              (ToolRecord.create_new tool_id agent_id defn.name defn.description defn.version
                (artifactKey (compute_code_hash digest defn.code defn.language.toList))
                (compute_code_hash digest defn.code defn.language.toList) defn.language now) with
             registryLog := (repoCreate (store_artifact st { a with usage_count := a.usage_count + 1 })
              (ToolRecord.create_new tool_id agent_id defn.name defn.description defn.version
                (artifactKey (compute_code_hash digest defn.code defn.language.toList))
                (compute_code_hash digest defn.code defn.language.toList) defn.language now)).registryLog
              ++ ["register " ++ tool_id] } tool_id
         else
           { repoCreate (store_artifact st { a with usage_count := a.usage_count + 1 })
              (ToolRecord.create_new tool_id agent_id defn.name defn.description defn.version
                (artifactKey (compute_code_hash digest defn.code defn.language.toList))
                (compute_code_hash digest defn.code defn.language.toList) defn.language now) with
             registryLog := (repoCreate (store_artifact st { a with usage_count := a.usage_count + 1 })
              (ToolRecord.create_new tool_id agent_id defn.name defn.description defn.version
                (artifactKey (compute_code_hash digest defn.code defn.language.toList))
                (compute_code_hash digest defn.code defn.language.toList) defn.language now)).registryLog
              ++ ["register " ++ tool_id] }) := by
    simp only [register_tool, hstruct, update_usage_count, hhit, List.isEmpty_nil,
      not_true_eq_false, if_false, Bool.false_eq_true, reduceIte]
  rw [hreg]
  refine ⟨rfl, fun hrb => ?_⟩
  subst hrb
  simp only [if_true, reduceIte, repoGet, repoDelete, get_tool_status]
  constructor
  · exact lookupKV_eraseKV_self _ _
  · rw [show (lookupKV (eraseKV (repoCreate (store_artifact st
        { a with usage_count := a.usage_count + 1 })
        (ToolRecord.create_new tool_id agent_id defn.name defn.description defn.version
          (artifactKey (compute_code_hash digest defn.code defn.language.toList))
          (compute_code_hash digest defn.code defn.language.toList) defn.language now)).tools
        tool_id) tool_id) = none from lookupKV_eraseKV_self _ _]

/-- Witness for C2 at a concrete world: with the artifact already cached, a
failing publish surfaces the original gateway error and the persisted record
is rolled back (the status query finds nothing). -/
theorem register_publish_failure_rollback_witness :
    (register_tool id get_default_policy cachedState sampleDefn "agent-A" "tool-9" "t1"
        sampleAnalyzed (.error (.registration "gateway down" none none)) true).1
      = .error (.registration "gateway down" none none) ∧
    repoGet (register_tool id get_default_policy cachedState sampleDefn "agent-A" "tool-9"
        "t1" sampleAnalyzed (.error (.registration "gateway down" none none)) true).2
        "tool-9" = none ∧
    get_tool_status (register_tool id get_default_policy cachedState sampleDefn "agent-A"
        "tool-9" "t1" sampleAnalyzed (.error (.registration "gateway down" none none))
        true).2 "tool-9"
      = .error (.storage "Tool not found: tool-9" "get_tool_status") := by
  have h := register_publish_failure_rollback id get_default_policy cachedState
    sampleDefn "agent-A" "tool-9" "t1" sampleAnalyzed sampleArtifact "gateway down"
    none none true (by decide) (by decide)
  exact ⟨h.1, (h.2 rfl).1, (h.2 rfl).2⟩

/-- C5: deregistering a tool with `delete_artifact=true` succeeds, and the
artifact objects (metadata record and code blob) survive exactly when some
other persisted record still references the same content hash: if another
referencing record remains, both stores are untouched; if the deregistered
record was the only referencing one, both objects are physically deleted —
so deleting every referencing tool in turn leaves the artifact gone.
(`hwf`: every table entry stores its own key as `tool_id`.) -/
theorem shared_artifact_delete_safety (st : LifecycleState)
    (tool_id agent_id now : String) (r : ToolRecord) (h : Str)
    (hwf : ∀ kv ∈ st.tools, (kv : String × ToolRecord).2.tool_id = kv.1)
    (hr : repoGet st tool_id = some r)
    (hown : r.agent_id = agent_id)
    (hh : r.code_hash = some h)
    (hne : h ≠ []) :
    (deregister_tool st tool_id agent_id true now).1 = .ok () ∧
    ((∃ kv ∈ st.tools, (kv : String × ToolRecord).1 ≠ tool_id ∧
        (kv : String × ToolRecord).2.code_hash = some h) →
      (deregister_tool st tool_id agent_id true now).2.artifactStore = st.artifactStore ∧
      (deregister_tool st tool_id agent_id true now).2.codeStore = st.codeStore) ∧
    ((¬ ∃ kv ∈ st.tools, (kv : String × ToolRecord).1 ≠ tool_id ∧
        (kv : String × ToolRecord).2.code_hash = some h) →
      lookupKV (deregister_tool st tool_id agent_id true now).2.artifactStore
        (artifactKey h) = none ∧
      lookupKV (deregister_tool st tool_id agent_id true now).2.codeStore
        (codeKey h r.language) = none) := by
  have hisE : h.isEmpty = false := by
    rcases h with _ | ⟨c, t⟩
    · exact absurd rfl hne
    · rfl
  rcases hfind : findByHash (eraseKV st.tools tool_id) h with _ | other
  · -- no other record references the hash: the artifact is deleted
    refine ⟨?_, fun hex => ?_, fun _ => ?_⟩
    · simp [deregister_tool, hr, hh, hown, hisE, repoDelete, hfind]
    · exfalso
      obtain ⟨kv, hmem, hk, hch⟩ := hex
      rw [findByHash_eq_none_iff] at hfind
      exact hfind kv (mem_eraseKV_of_mem hmem hk) hch
    · constructor <;>
        simp [deregister_tool, hr, hh, hown, hisE, repoDelete, delete_artifact,
          hfind, lookupKV_eraseKV_self]
  · -- another record still references the hash: the artifact survives
    obtain ⟨k, hmem, hch⟩ := findByHash_some_mem hfind
    obtain ⟨hmem', hk⟩ := mem_of_mem_eraseKV hmem
    have hid : other.tool_id = k := hwf (k, other) hmem'
    have hno : ¬ other.tool_id = tool_id := by rw [hid]; exact hk
    refine ⟨?_, fun _ => ?_, fun hnex => ?_⟩
    · simp [deregister_tool, hr, hh, hown, hisE, repoDelete, hfind, hno]
    · constructor <;>
        simp [deregister_tool, hr, hh, hown, hisE, repoDelete, hfind, hno]
    · exact absurd ⟨(k, other), hmem', hk, hch⟩ hnex

/-- Witness for C5: deregistering tool A while B still shares the hash leaves
both S3 stores untouched; deregistering A when it is the only referencing
tool deletes both the artifact record and the code blob. -/
theorem shared_artifact_delete_safety_witness :
    (deregister_tool sharedStateAB "A" "agent-1" true "t1").1 = .ok () ∧
    (deregister_tool sharedStateAB "A" "agent-1" true "t1").2.artifactStore
      = sharedStateAB.artifactStore ∧
    (deregister_tool sharedStateAB "A" "agent-1" true "t1").2.codeStore
      = sharedStateAB.codeStore ∧
    lookupKV (deregister_tool sharedStateA "A" "agent-1" true "t1").2.artifactStore
      (artifactKey sharedHash) = none ∧
    lookupKV (deregister_tool sharedStateA "A" "agent-1" true "t1").2.codeStore
      (codeKey sharedHash "python") = none := by
  have hAB := shared_artifact_delete_safety sharedStateAB "A" "agent-1" "t1" toolA
    sharedHash (by decide) (by decide) (by decide) (by decide) (by decide)
  have hA := shared_artifact_delete_safety sharedStateA "A" "agent-1" "t1" toolA
    sharedHash (by decide) (by decide) (by decide) (by decide) (by decide)
  have hexists : ∃ kv ∈ sharedStateAB.tools, (kv : String × ToolRecord).1 ≠ "A" ∧
      (kv : String × ToolRecord).2.code_hash = some sharedHash := by
    exact ⟨("B", toolB), by decide, by decide, by decide⟩
  have hnone : ¬ ∃ kv ∈ sharedStateA.tools, (kv : String × ToolRecord).1 ≠ "A" ∧
      (kv : String × ToolRecord).2.code_hash = some sharedHash := by decide
  exact ⟨hAB.1, (hAB.2.1 hexists).1, (hAB.2.1 hexists).2,
    (hA.2.2 hnone).1, (hA.2.2 hnone).2⟩

theorem sampleAnalyzed_eq :
    sampleAnalyzed =
      { is_valid := true, language := "python", code_hash := "hash1",
        resource_estimate := some
          { estimated_memory_mb := 66, estimated_cpu_seconds := 0.15,
            complexity_score := 1, has_loops := false, has_recursion := false,
            max_depth := 2 } } := by
  have h1 : (pyWalk assignTree).foldl estimateStep initEstState
      = ⟨[], false, false, 1⟩ := by decide
  have h2 : pyMaxDepth assignTree = 2 := by decide
  have hiss : analyze_ast_issues assignTree = [] := by decide
  simp only [sampleAnalyzed, py_analyze, hiss, py_estimate_resources, h1, h2]
  norm_num

theorem sampleAnalyzed_eval_default :
    evaluate get_default_policy sampleAnalyzed = [] := by
  rw [sampleAnalyzed_eq]
  simp only [evaluate]
  norm_num [check_resource_limits, get_default_policy]

theorem sampleAnalyzed_validate (ch lang : String) :
    validate_code_result get_default_policy none ch lang sampleAnalyzed
      = .ok (sampleAnalyzed, []) := by
  have hv : sampleAnalyzed.is_valid = true := by rw [sampleAnalyzed_eq]
  simp [validate_code_result, sampleAnalyzed_eval_default, has_critical_violations, hv]

/-- C1 (code-bug evidence): registering a structurally valid definition whose
source is valid, against an empty artifact cache (a cache miss), does not
persist any ToolRecord and does not return it — it raises.  The source binds
the `(result, violations)` tuple returned by
`ValidationService.validate_code` and then reads `validation_result.is_valid`
on that tuple, which raises `AttributeError`, wrapped by the outer handler
into a `RegistrationError`; only the validation service's own best-effort
cache write (the stored artifact, third conjunct) survives. -/
theorem register_miss_path_always_fails :
    (register_tool id get_default_policy emptyState sampleDefn "agent-1" "tool-1" "t0"
        sampleAnalyzed (.ok ()) true).1
      = .error (.registration
          "Tool registration failed: tuple object has no attribute is_valid"
          none (some "agent-1")) ∧
    repoGet (register_tool id get_default_policy emptyState sampleDefn "agent-1" "tool-1"
        "t0" sampleAnalyzed (.ok ()) true).2 "tool-1" = none ∧
    (retrieve_artifact (register_tool id get_default_policy emptyState sampleDefn
        "agent-1" "tool-1" "t0" sampleAnalyzed (.ok ()) true).2
      (compute_code_hash id sampleDefn.code "python".toList)).isSome = true := by
  have hmiss : retrieve_artifact emptyState
      (compute_code_hash id sampleDefn.code sampleDefn.language.toList) = none := rfl
  have hsv : service_validate id get_default_policy emptyState sampleDefn.code
      sampleDefn.language sampleAnalyzed "t0"
      = (.ok (sampleAnalyzed, []), store_artifact emptyState
          (service_cache_artifact id sampleDefn.code sampleDefn.language
            sampleAnalyzed "t0")) := by
    simp only [service_validate, hmiss, sampleAnalyzed_validate]
  have hse : (validate_structure sampleDefn).isEmpty = true := by decide
  have hreg : register_tool id get_default_policy emptyState sampleDefn "agent-1"
      "tool-1" "t0" sampleAnalyzed (.ok ()) true
      = (.error (.registration
          "Tool registration failed: tuple object has no attribute is_valid"
          none (some "agent-1")),
         store_artifact emptyState (service_cache_artifact id sampleDefn.code
           sampleDefn.language sampleAnalyzed "t0")) := by
    simp only [register_tool, hse, not_true_eq_false, if_false, hmiss, hsv,
      Bool.false_eq_true, reduceIte]
  rw [hreg]
  refine ⟨rfl, rfl, ?_⟩
  rfl

end DynamicTools
